import Mathlib

/-!
Shallow embedding of `src/fraud_streamlit.py`, a single-page Streamlit app that
collects insurance-claim attributes, loads a pickled classifier, and renders a
fraud verdict with probability scores.

The embedding covers:
* the risk-level classification of the fraud probability (`main`, lines 287-296);
* the feature-collection form `create_input_features` (lines 67-197), with the
  Streamlit widgets modelled by their guarantees (a selectbox returns a member
  of its option list, a slider returns a value of its stepped range, a
  number_input clamps to its bounds) parameterised by the user's choice;
* the guarded prediction call `make_prediction` (lines 199-212);
* the artifact loader `load_model` (lines 53-65), with the filesystem and
  unpickling outcomes made explicit;
* the rendering control flow of `main` (lines 214-301).

The pickled model artifact itself is external to the repository; its behaviour
(`predict` / `predict_proba`) is represented by an abstract `Model` record of
optional-valued functions, where `none` models a raised exception, and the
contract the spec states for the artifact is a predicate on such records.
-/

namespace FraudApp

/-- Risk classification rendered by `main` (fraud_streamlit.py lines 288-296). -/
inductive RiskLevel where
  | HIGH
  | MEDIUM
  | LOW
deriving DecidableEq, Repr

/-- Three-way classification of the fraud probability `p1`, from `main`
lines 287-296: HIGH when `fraud_prob >= 0.7`, else MEDIUM when
`fraud_prob >= 0.4`, else LOW. -/
def riskLevel (p1 : ℚ) : RiskLevel :=
  if p1 ≥ 7/10 then RiskLevel.HIGH
  else if p1 ≥ 4/10 then RiskLevel.MEDIUM
  else RiskLevel.LOW

/-- Options of the Month selectbox (line 76). -/
def monthOptions : List String :=
  ["Dec", "Jan", "Oct", "Jun", "Feb", "Nov", "Apr", "Mar", "Aug", "Jul", "May", "Sep"]

/-- Options of the Day of Week selectbox (line 79). -/
def dayOfWeekOptions : List String :=
  ["Wednesday", "Friday", "Saturday", "Monday", "Tuesday", "Sunday", "Thursday"]

/-- Options of the Month Claimed selectbox (line 85). -/
def monthClaimedOptions : List String :=
  ["Jan", "Nov", "Jul", "Feb", "Mar", "Dec", "Apr", "Aug", "May", "Jun", "Sep", "Oct", "0"]

/-- Options of the Day of Week (Claimed) selectbox (line 88). -/
def dayOfWeekClaimedOptions : List String :=
  ["Tuesday", "Monday", "Thursday", "Friday", "Wednesday", "Saturday", "Sunday", "0"]

/-- Options of the Vehicle Make selectbox (line 93). -/
def makeOptions : List String :=
  ["Honda", "Toyota", "Ford", "Mazda", "Chevrolet", "Pontiac", "Accura", "Dodge",
   "Mercury", "Jaguar", "Nisson", "VW", "Saab", "Saturn", "Porche", "BMW",
   "Mercedes", "Ferrari", "Lexus"]

/-- Options of the Vehicle Category selectbox (line 98). -/
def vehicleCategoryOptions : List String := ["Sport", "Utility", "Sedan"]

/-- Options of the Vehicle Price Range selectbox (line 100). -/
def vehiclePriceOptions : List String :=
  ["more than 69000", "20000 to 29000", "30000 to 39000", "less than 20000",
   "40000 to 59000", "60000 to 69000"]

/-- Options of the Age of Vehicle selectbox (line 104). -/
def ageOfVehicleOptions : List String :=
  ["3 years", "6 years", "7 years", "more than 7", "5 years", "new", "4 years", "2 years"]

/-- Options of the Policy Type selectbox (line 107). -/
def policyTypeOptions : List String :=
  ["Sport - Liability", "Sport - Collision", "Sedan - Liability", "Utility - All Perils",
   "Sedan - All Perils", "Sedan - Collision", "Utility - Collision", "Utility - Liability",
   "Sport - All Perils"]

/-- Options of the Base Policy selectbox (line 112). -/
def basePolicyOptions : List String := ["Liability", "Collision", "All Perils"]

/-- Options of the Sex selectbox (line 118). -/
def sexOptions : List String := ["Female", "Male"]

/-- Options of the Marital Status selectbox (line 120). -/
def maritalStatusOptions : List String := ["Single", "Married", "Widow", "Divorced"]

/-- Options of the Age Group of Policy Holder selectbox (line 124). -/
def ageOfPolicyHolderOptions : List String :=
  ["26 to 30", "31 to 35", "41 to 50", "51 to 65", "21 to 25",
   "36 to 40", "16 to 17", "over 65", "18 to 20"]

/-- Options of the At Fault selectbox (line 128). -/
def faultOptions : List String := ["Policy Holder", "Third Party"]

/-- Options of the Accident Area selectbox (line 130). -/
def accidentAreaOptions : List String := ["Urban", "Rural"]

/-- Options of the Days Policy to Accident selectbox (line 142). -/
def daysPolicyAccidentOptions : List String :=
  ["more than 30", "15 to 30", "none", "1 to 7", "8 to 15"]

/-- Options of the Days Policy to Claim selectbox (line 145). -/
def daysPolicyClaimOptions : List String :=
  ["more than 30", "15 to 30", "8 to 15", "none"]

/-- Options of the Past Number of Claims selectbox (line 148). -/
def pastNumberOfClaimsOptions : List String := ["none", "1", "2 to 4", "more than 4"]

/-- Options of the Police Report Filed selectbox (line 151). -/
def policeReportFiledOptions : List String := ["No", "Yes"]

/-- Options of the Witness Present selectbox (line 152). -/
def witnessPresentOptions : List String := ["No", "Yes"]

/-- Options of the Agent Type selectbox (line 153). -/
def agentTypeOptions : List String := ["External", "Internal"]

/-- Options of the Number of Suppliments selectbox (line 155). -/
def numberOfSupplimentsOptions : List String := ["none", "more than 5", "3 to 5", "1 to 2"]

/-- Options of the Address Change Claim selectbox (line 158). -/
def addressChangeClaimOptions : List String :=
  ["1 year", "no change", "4 to 8 years", "2 to 3 years", "under 6 months"]

/-- Options of the Number of Cars selectbox (line 161). -/
def numberOfCarsOptions : List String :=
  ["3 to 4", "1 vehicle", "2 vehicles", "5 to 8", "more than 8"]

/-- The kind of one field of the record returned by `create_input_features`:
a categorical field with its fixed selectbox domain, or a numeric field with
its widget bounds and step. -/
inductive FieldKind where
  | categorical (domain : List String)
  | numericRange (lo hi step : Int)
deriving DecidableEq, Repr

/-- Whether a field kind is categorical. -/
def FieldKind.isCategorical : FieldKind → Bool
  | FieldKind.categorical _ => true
  | FieldKind.numericRange _ _ _ => false

/-- The schema of the record returned by `create_input_features`
(fraud_streamlit.py lines 164-197), in the order of the returned dict:
each key paired with the domain of the widget that produced its value. -/
def claimRecordFields : List (String × FieldKind) :=
  [("Month", FieldKind.categorical monthOptions),
   ("DayOfWeek", FieldKind.categorical dayOfWeekOptions),
   ("Make", FieldKind.categorical makeOptions),
   ("AccidentArea", FieldKind.categorical accidentAreaOptions),
   ("DayOfWeekClaimed", FieldKind.categorical dayOfWeekClaimedOptions),
   ("MonthClaimed", FieldKind.categorical monthClaimedOptions),
   ("WeekOfMonth", FieldKind.numericRange 1 5 1),
   ("WeekOfMonthClaimed", FieldKind.numericRange 0 5 1),
   ("Sex", FieldKind.categorical sexOptions),
   ("MaritalStatus", FieldKind.categorical maritalStatusOptions),
   ("Age", FieldKind.numericRange 16 80 1),
   ("Fault", FieldKind.categorical faultOptions),
   ("PolicyType", FieldKind.categorical policyTypeOptions),
   ("VehicleCategory", FieldKind.categorical vehicleCategoryOptions),
   ("VehiclePrice", FieldKind.categorical vehiclePriceOptions),
   ("Days_Policy_Accident", FieldKind.categorical daysPolicyAccidentOptions),
   ("Days_Policy_Claim", FieldKind.categorical daysPolicyClaimOptions),
   ("PastNumberOfClaims", FieldKind.categorical pastNumberOfClaimsOptions),
   ("AgeOfVehicle", FieldKind.categorical ageOfVehicleOptions),
   ("AgeOfPolicyHolder", FieldKind.categorical ageOfPolicyHolderOptions),
   ("PoliceReportFiled", FieldKind.categorical policeReportFiledOptions),
   ("WitnessPresent", FieldKind.categorical witnessPresentOptions),
   ("AgentType", FieldKind.categorical agentTypeOptions),
   ("NumberOfSuppliments", FieldKind.categorical numberOfSupplimentsOptions),
   ("AddressChange_Claim", FieldKind.categorical addressChangeClaimOptions),
   ("NumberOfCars", FieldKind.categorical numberOfCarsOptions),
   ("BasePolicy", FieldKind.categorical basePolicyOptions),
   ("PolicyNumber", FieldKind.numericRange 1 15420 1),
   ("RepNumber", FieldKind.numericRange 1 16 1),
   ("Deductible", FieldKind.numericRange 300 700 100),
   ("DriverRating", FieldKind.numericRange 1 4 1),
   ("Year", FieldKind.numericRange 1994 1996 1)]

/-- One claim record as returned by `create_input_features` (lines 164-197):
the 32 dict keys become fields; categorical values are strings, numeric values
integers. -/
structure ClaimRecord where
  Month : String
  DayOfWeek : String
  Make : String
  AccidentArea : String
  DayOfWeekClaimed : String
  MonthClaimed : String
  WeekOfMonth : Int
  WeekOfMonthClaimed : Int
  Sex : String
  MaritalStatus : String
  Age : Int
  Fault : String
  PolicyType : String
  VehicleCategory : String
  VehiclePrice : String
  Days_Policy_Accident : String
  Days_Policy_Claim : String
  PastNumberOfClaims : String
  AgeOfVehicle : String
  AgeOfPolicyHolder : String
  PoliceReportFiled : String
  WitnessPresent : String
  AgentType : String
  NumberOfSuppliments : String
  AddressChange_Claim : String
  NumberOfCars : String
  BasePolicy : String
  PolicyNumber : Int
  RepNumber : Int
  Deductible : Int
  DriverRating : Int
  Year : Int
deriving DecidableEq, Repr

/-- Streamlit selectbox modelled by its guarantee: the returned value is one of
the listed options; `n` indexes the user's choice. -/
def selectbox (opts : List String) (n : Nat) : String :=
  opts.getD (n % opts.length) ""

/-- Streamlit slider modelled by its guarantee: the returned value is
`lo + step * k` for a `k` determined by the user's choice `n`, always within
`[lo, hi]`; `dflt` is the initial value shown and does not constrain the
choice. -/
def slider (lo hi dflt step : Int) (n : Nat) : Int :=
  lo + step * ((n : Int) % ((hi - lo) / step + 1))

/-- Streamlit number_input modelled by its guarantee: the typed value `v` is
clamped to `[lo, hi]`; `dflt` is the initial value shown. -/
def numberInput (lo hi dflt : Int) (v : Int) : Int :=
  max lo (min hi v)

/-- One user interaction with the form: a choice for each widget of
`create_input_features`, in the order the widgets appear (lines 76-162). -/
structure UserChoices where
  month : Nat
  day_of_week : Nat
  week_of_month : Nat
  week_of_month_claimed : Nat
  month_claimed : Nat
  day_of_week_claimed : Nat
  make : Nat
  vehicle_category : Nat
  vehicle_price : Nat
  age_of_vehicle : Nat
  policy_type : Nat
  base_policy : Nat
  deductible : Nat
  sex : Nat
  marital_status : Nat
  age : Nat
  age_of_policy_holder : Nat
  fault : Nat
  accident_area : Nat
  driver_rating : Nat
  policy_number : Int
  rep_number : Nat
  year : Nat
  days_policy_accident : Nat
  days_policy_claim : Nat
  past_number_of_claims : Nat
  police_report_filed : Nat
  witness_present : Nat
  agent_type : Nat
  number_of_suppliments : Nat
  address_change_claim : Nat
  number_of_cars : Nat
deriving Repr

/-- `create_input_features` (lines 67-197): reads every widget and returns the
record of all the features, keyed as in the returned dict. -/
def create_input_features (c : UserChoices) : ClaimRecord :=
  let month := selectbox monthOptions c.month
  let day_of_week := selectbox dayOfWeekOptions c.day_of_week
  let week_of_month := slider 1 5 3 1 c.week_of_month
  let week_of_month_claimed := slider 0 5 3 1 c.week_of_month_claimed
  let month_claimed := selectbox monthClaimedOptions c.month_claimed
  let day_of_week_claimed := selectbox dayOfWeekClaimedOptions c.day_of_week_claimed
  let make := selectbox makeOptions c.make
  let vehicle_category := selectbox vehicleCategoryOptions c.vehicle_category
  let vehicle_price := selectbox vehiclePriceOptions c.vehicle_price
  let age_of_vehicle := selectbox ageOfVehicleOptions c.age_of_vehicle
  let policy_type := selectbox policyTypeOptions c.policy_type
  let base_policy := selectbox basePolicyOptions c.base_policy
  let deductible := slider 300 700 400 100 c.deductible
  let sex := selectbox sexOptions c.sex
  let marital_status := selectbox maritalStatusOptions c.marital_status
  let age := slider 16 80 40 1 c.age
  let age_of_policy_holder := selectbox ageOfPolicyHolderOptions c.age_of_policy_holder
  let fault := selectbox faultOptions c.fault
  let accident_area := selectbox accidentAreaOptions c.accident_area
  let driver_rating := slider 1 4 2 1 c.driver_rating
  let policy_number := numberInput 1 15420 7710 c.policy_number
  let rep_number := slider 1 16 8 1 c.rep_number
  let year := slider 1994 1996 1995 1 c.year
  let days_policy_accident := selectbox daysPolicyAccidentOptions c.days_policy_accident
  let days_policy_claim := selectbox daysPolicyClaimOptions c.days_policy_claim
  let past_number_of_claims := selectbox pastNumberOfClaimsOptions c.past_number_of_claims
  let police_report_filed := selectbox policeReportFiledOptions c.police_report_filed
  let witness_present := selectbox witnessPresentOptions c.witness_present
  let agent_type := selectbox agentTypeOptions c.agent_type
  let number_of_suppliments := selectbox numberOfSupplimentsOptions c.number_of_suppliments
  let address_change_claim := selectbox addressChangeClaimOptions c.address_change_claim
  let number_of_cars := selectbox numberOfCarsOptions c.number_of_cars
  { Month := month
    DayOfWeek := day_of_week
    Make := make
    AccidentArea := accident_area
    DayOfWeekClaimed := day_of_week_claimed
    MonthClaimed := month_claimed
    WeekOfMonth := week_of_month
    WeekOfMonthClaimed := week_of_month_claimed
    Sex := sex
    MaritalStatus := marital_status
    Age := age
    Fault := fault
    PolicyType := policy_type
    VehicleCategory := vehicle_category
    VehiclePrice := vehicle_price
    Days_Policy_Accident := days_policy_accident
    Days_Policy_Claim := days_policy_claim
    PastNumberOfClaims := past_number_of_claims
    AgeOfVehicle := age_of_vehicle
    AgeOfPolicyHolder := age_of_policy_holder
    PoliceReportFiled := police_report_filed
    WitnessPresent := witness_present
    AgentType := agent_type
    NumberOfSuppliments := number_of_suppliments
    AddressChange_Claim := address_change_claim
    NumberOfCars := number_of_cars
    BasePolicy := base_policy
    PolicyNumber := policy_number
    RepNumber := rep_number
    Deductible := deductible
    DriverRating := driver_rating
    Year := year }

/-- Modelled from the spec: the encoder behind the pickled pipeline (which is
not in the repository) accepts a categorical value exactly when it lies in the
fixed enumerated domain the model was trained on, which for each field is its
selectbox domain. `encodes r` states that every categorical field of `r`
encodes. -/
abbrev encodes (r : ClaimRecord) : Prop :=
  r.Month ∈ monthOptions ∧
  r.DayOfWeek ∈ dayOfWeekOptions ∧
  r.Make ∈ makeOptions ∧
  r.AccidentArea ∈ accidentAreaOptions ∧
  r.DayOfWeekClaimed ∈ dayOfWeekClaimedOptions ∧
  r.MonthClaimed ∈ monthClaimedOptions ∧
  r.Sex ∈ sexOptions ∧
  r.MaritalStatus ∈ maritalStatusOptions ∧
  r.Fault ∈ faultOptions ∧
  r.PolicyType ∈ policyTypeOptions ∧
  r.VehicleCategory ∈ vehicleCategoryOptions ∧
  r.VehiclePrice ∈ vehiclePriceOptions ∧
  r.Days_Policy_Accident ∈ daysPolicyAccidentOptions ∧
  r.Days_Policy_Claim ∈ daysPolicyClaimOptions ∧
  r.PastNumberOfClaims ∈ pastNumberOfClaimsOptions ∧
  r.AgeOfVehicle ∈ ageOfVehicleOptions ∧
  r.AgeOfPolicyHolder ∈ ageOfPolicyHolderOptions ∧
  r.PoliceReportFiled ∈ policeReportFiledOptions ∧
  r.WitnessPresent ∈ witnessPresentOptions ∧
  r.AgentType ∈ agentTypeOptions ∧
  r.NumberOfSuppliments ∈ numberOfSupplimentsOptions ∧
  r.AddressChange_Claim ∈ addressChangeClaimOptions ∧
  r.NumberOfCars ∈ numberOfCarsOptions ∧
  r.BasePolicy ∈ basePolicyOptions

/-- The numeric fields all sit within their widget bounds, with the Deductible
additionally on the slider's step grid of 100. -/
abbrev validNums (r : ClaimRecord) : Prop :=
  1 ≤ r.WeekOfMonth ∧ r.WeekOfMonth ≤ 5 ∧
  0 ≤ r.WeekOfMonthClaimed ∧ r.WeekOfMonthClaimed ≤ 5 ∧
  16 ≤ r.Age ∧ r.Age ≤ 80 ∧
  1 ≤ r.PolicyNumber ∧ r.PolicyNumber ≤ 15420 ∧
  1 ≤ r.RepNumber ∧ r.RepNumber ≤ 16 ∧
  300 ≤ r.Deductible ∧ r.Deductible ≤ 700 ∧ (r.Deductible - 300) % 100 = 0 ∧
  1 ≤ r.DriverRating ∧ r.DriverRating ≤ 4 ∧
  1994 ≤ r.Year ∧ r.Year ≤ 1996

/-- The full domain invariant of a claim record: every categorical field in its
enumerated domain and every numeric field within its widget bounds. -/
abbrev validClaimRecord (r : ClaimRecord) : Prop :=
  encodes r ∧ validNums r

/-- Modelled from the spec: the pickled model artifact (external to the
repository) exposes `predict` and `predict_proba`; a raised exception inside
either call is modelled by `none`. -/
structure Model where
  predict : ClaimRecord → Option Int
  predict_proba : ClaimRecord → Option (ℚ × ℚ)

/-- `make_prediction` (lines 199-212): runs `model.predict` then
`model.predict_proba` inside one try block; any exception raised by either is
caught, an error is surfaced, and the pair `(None, None)` is returned. -/
def make_prediction (model : Model) (features : ClaimRecord) :
    Option Int × Option (ℚ × ℚ) :=
  match model.predict features with
  | none => (none, none)
  | some pred =>
    match model.predict_proba features with
    | none => (none, none)
    | some proba => (some pred, some proba)

/-- The state of the artifact path when `load_model` runs: the file is missing
(`open` raises FileNotFoundError), present but failing to unpickle
(`pickle.load` raises with some message), or readable. -/
inductive ArtifactState where
  | missing
  | corrupt (msg : String)
  | readable (m : Model)

/-- Error text shown for a missing artifact (line 61). -/
def notFoundMessage : String :=
  "Model file \x27insurance_fraud_model.sav\x27 not found. Please ensure the file is in the same directory as this app."

/-- Error text shown for any other load failure (line 64). -/
def loadErrorMessage (e : String) : String :=
  "Error loading model: " ++ e

/-- `load_model` (lines 53-65): returns the unpickled model on success; on
FileNotFoundError, or on any other exception, surfaces an error message via
`st.error` and returns `None`. The result pair is (returned handle, errors
displayed). -/
def load_model (fs : ArtifactState) : Option Model × List String :=
  match fs with
  | ArtifactState.readable m => (some m, [])
  | ArtifactState.missing => (none, [notFoundMessage])
  | ArtifactState.corrupt e => (none, [loadErrorMessage e])

/-- What `main` renders for one request. -/
inductive RenderOutcome where
  | stopped
  | idle
  | predictionFailed
  | wouldCrash
  | rendered (label : Int) (proba : ℚ × ℚ) (risk : RiskLevel)

/-- The rendering control flow of `main` (lines 214-301): stop when the model
failed to load (lines 218-219); otherwise collect the features and, when the
button is pressed, call `make_prediction` and render the verdict, the two
probability scores and the risk level only when `prediction is not None`
(line 253). The source indexes `prediction_proba` unconditionally inside that
branch, so a pair `(some label, none)` would raise there; `wouldCrash` marks
that path. -/
def main (fs : ArtifactState) (c : UserChoices) (pressed : Bool) : RenderOutcome :=
  match load_model fs with
  | (none, _) => RenderOutcome.stopped
  | (some model, _) =>
    let features := create_input_features c
    if pressed then
      match make_prediction model features with
      | (some pred, some proba) => RenderOutcome.rendered pred proba (riskLevel proba.2)
      | (some _, none) => RenderOutcome.wouldCrash
      | (none, _) => RenderOutcome.predictionFailed
    else RenderOutcome.idle

/-- Modelled from the spec: the artifact contract — `predict` only produces
labels in {0, 1}, and `predict_proba` only produces pairs of probabilities
that are nonnegative and sum to 1. -/
def ModelContract (m : Model) : Prop :=
  (∀ r l, m.predict r = some l → l = 0 ∨ l = 1) ∧
  (∀ r p, m.predict_proba r = some p → 0 ≤ p.1 ∧ 0 ≤ p.2 ∧ p.1 + p.2 = 1)

/-- Modelled from the spec: a model raises on any record with a categorical
value outside its trained domain — unseen categorical values are a defined
failure mode of the encoder, not silently ignored. -/
def FailsOnUnseen (m : Model) : Prop :=
  ∀ r, ¬ encodes r → m.predict r = none

/-- Modelled from the spec: a concrete model obeying the artifact contract —
it encodes exactly the enumerated domains, labels every encodable record 1,
and returns the probability pair (1/5, 4/5). -/
def specModel : Model where
  predict r := if encodes r then some 1 else none
  predict_proba r := if encodes r then some (1/5, 4/5) else none

/-- A concrete form interaction: the first option of every widget. -/
def defaultChoices : UserChoices where
  month := 0
  day_of_week := 0
  week_of_month := 0
  week_of_month_claimed := 0
  month_claimed := 0
  day_of_week_claimed := 0
  make := 0
  vehicle_category := 0
  vehicle_price := 0
  age_of_vehicle := 0
  policy_type := 0
  base_policy := 0
  deductible := 0
  sex := 0
  marital_status := 0
  age := 0
  age_of_policy_holder := 0
  fault := 0
  accident_area := 0
  driver_rating := 0
  policy_number := 0
  rep_number := 0
  year := 0
  days_policy_accident := 0
  days_policy_claim := 0
  past_number_of_claims := 0
  police_report_filed := 0
  witness_present := 0
  agent_type := 0
  number_of_suppliments := 0
  address_change_claim := 0
  number_of_cars := 0

/-- The record produced by the all-first-options interaction. -/
def okRecord : ClaimRecord := create_input_features defaultChoices

/-- `okRecord` with the vehicle make replaced by Tesla, which is not among the
19 makes of the selectbox domain. -/
def teslaRecord : ClaimRecord := { okRecord with Make := "Tesla" }

/-- A selectbox over a nonempty option list returns one of its options. -/
theorem selectbox_mem (opts : List String) (h : opts ≠ []) (n : Nat) :
    selectbox opts n ∈ opts := by
  unfold selectbox
  have hlen : 0 < opts.length := List.length_pos.mpr h
  have hmod : n % opts.length < opts.length := Nat.mod_lt _ hlen
  rw [List.getD_eq_getElem?_getD, List.getElem?_eq_getElem hmod, Option.getD_some]
  exact List.getElem_mem _

/-- A slider with positive step dividing its span returns a value within its
bounds and on its step grid. -/
theorem slider_bounds (lo hi dflt step : Int) (n : Nat) (hstep : 0 < step)
    (hdvd : step ∣ (hi - lo)) (hle : lo ≤ hi) :
    lo ≤ slider lo hi dflt step n ∧ slider lo hi dflt step n ≤ hi ∧
    (slider lo hi dflt step n - lo) % step = 0 := by
  unfold slider
  have hq0 : 0 ≤ (hi - lo) / step := Int.ediv_nonneg (by omega) (by omega)
  have h1 : 0 ≤ (n : Int) % ((hi - lo) / step + 1) := Int.emod_nonneg _ (by omega)
  have h2 : (n : Int) % ((hi - lo) / step + 1) < (hi - lo) / step + 1 :=
    Int.emod_lt_of_pos _ (by omega)
  have hsq : step * ((hi - lo) / step) = hi - lo := Int.mul_ediv_cancel' hdvd
  have hmul : step * ((n : Int) % ((hi - lo) / step + 1)) ≤ hi - lo := by
    calc step * ((n : Int) % ((hi - lo) / step + 1))
        ≤ step * ((hi - lo) / step) :=
          mul_le_mul_of_nonneg_left (by omega) (le_of_lt hstep)
      _ = hi - lo := hsq
  refine ⟨?_, ?_, ?_⟩
  · have := mul_nonneg (le_of_lt hstep) h1
    linarith
  · linarith
  · rw [add_sub_cancel_left]
    exact Int.mul_emod_right step _

/-- A number_input clamps its value into its bounds. -/
theorem numberInput_bounds (lo hi dflt v : Int) (h : lo ≤ hi) :
    lo ≤ numberInput lo hi dflt v ∧ numberInput lo hi dflt v ≤ hi := by
  unfold numberInput
  exact ⟨le_max_left _ _, max_le h (min_le_left _ _)⟩

/-- C1: for every probability `p1` with `0 ≤ p1 ≤ 1`, the derived risk level is
HIGH iff `p1 ≥ 0.7`, MEDIUM iff `0.4 ≤ p1 < 0.7`, and LOW iff `p1 < 0.4`; the
three characterisations make the cases exhaustive and non-overlapping, and
`riskLevel` is by construction a pure function of `p1` alone. -/
theorem riskLevel_trichotomy (p1 : ℚ) (h0 : 0 ≤ p1) (h1 : p1 ≤ 1) :
    (riskLevel p1 = RiskLevel.HIGH ↔ 7/10 ≤ p1) ∧
    (riskLevel p1 = RiskLevel.MEDIUM ↔ 4/10 ≤ p1 ∧ p1 < 7/10) ∧
    (riskLevel p1 = RiskLevel.LOW ↔ p1 < 4/10) := by
  unfold riskLevel
  split_ifs with hH hM
  · exact ⟨⟨fun _ => hH, fun _ => rfl⟩,
      ⟨fun h => absurd h (by simp), fun h => absurd hH (not_le.mpr h.2)⟩,
      ⟨fun h => absurd h (by simp), fun h => absurd hH (not_le.mpr (lt_trans h (by norm_num)))⟩⟩
  · exact ⟨⟨fun h => absurd h (by simp), fun h => absurd h hH⟩,
      ⟨fun _ => ⟨hM, not_le.mp hH⟩, fun _ => rfl⟩,
      ⟨fun h => absurd h (by simp), fun h => absurd hM (not_le.mpr h)⟩⟩
  · exact ⟨⟨fun h => absurd h (by simp), fun h => absurd h hH⟩,
      ⟨fun h => absurd h (by simp), fun h => absurd h.1 hM⟩,
      ⟨fun _ => not_le.mp hM, fun _ => rfl⟩⟩

/-- Witness for C1 at the spec's example `p1 = 0.82`: risk level is HIGH. -/
theorem riskLevel_trichotomy_witness : riskLevel (82/100) = RiskLevel.HIGH :=
  (riskLevel_trichotomy (82/100) (by norm_num) (by norm_num)).1.mpr (by norm_num)

/-- C2, counterexample: the record returned by `create_input_features` does not
have 31 fields with 17 categorical and 14 numeric; its schema has a different
shape (see the amended theorem). -/
theorem claimRecordFields_not_31_17_14 :
    ¬ (claimRecordFields.length = 31 ∧
       (claimRecordFields.filter (fun f => FieldKind.isCategorical f.2)).length = 17 ∧
       (claimRecordFields.filter (fun f => !FieldKind.isCategorical f.2)).length = 14) := by
  decide

/-- C2, amended: the record returned by `create_input_features` is a
fixed-schema record of exactly 32 distinctly named fields, of which exactly 24
are categorical fields drawn from fixed enumerated domains and exactly 8 are
numeric fields with defined valid ranges. -/
theorem claimRecordFields_schema :
    claimRecordFields.length = 32 ∧
    (claimRecordFields.filter (fun f => FieldKind.isCategorical f.2)).length = 24 ∧
    (claimRecordFields.filter (fun f => !FieldKind.isCategorical f.2)).length = 8 ∧
    (claimRecordFields.map Prod.fst).Nodup := by
  decide

/-- C3: a missing artifact yields the NotFound outcome — no handle returned and
the not-found message surfaced — and a present-but-unreadable artifact yields
the LoadError outcome — no handle and the load-error message; `load_model` is a
total function of the artifact state, so no exception propagates. -/
theorem load_model_failure_outcomes (fs : ArtifactState) :
    (fs = ArtifactState.missing → load_model fs = (none, [notFoundMessage])) ∧
    (∀ e, fs = ArtifactState.corrupt e → load_model fs = (none, [loadErrorMessage e])) := by
  constructor
  · intro h
    subst h
    rfl
  · intro e h
    subst h
    rfl

/-- Witness for C3 at the missing-artifact state. -/
theorem load_model_failure_outcomes_witness :
    load_model ArtifactState.missing = (none, [notFoundMessage]) :=
  (load_model_failure_outcomes ArtifactState.missing).1 rfl

/-- C4: prediction is atomic — for every model and record, `make_prediction`
returns either a complete result (both the label and the probability pair) or
the error outcome `(None, None)` produced by its exception handler; the
embedding is a total function, so no exception escapes. -/
theorem make_prediction_atomic (m : Model) (r : ClaimRecord) :
    (∃ l p, make_prediction m r = (some l, some p)) ∨
    make_prediction m r = (none, none) := by
  unfold make_prediction
  cases m.predict r with
  | none => exact Or.inr rfl
  | some l =>
    cases m.predict_proba r with
    | none => exact Or.inr rfl
    | some p => exact Or.inl ⟨l, p, rfl⟩

/-- C10: the two components of the pair returned by `make_prediction` are
defined together or undefined together; a mixed pair is never returned. -/
theorem make_prediction_no_mixed_pair (m : Model) (r : ClaimRecord) :
    ((make_prediction m r).1.isSome ∧ (make_prediction m r).2.isSome) ∨
    ((make_prediction m r).1 = none ∧ (make_prediction m r).2 = none) := by
  unfold make_prediction
  cases m.predict r with
  | none => exact Or.inr ⟨rfl, rfl⟩
  | some l =>
    cases m.predict_proba r with
    | none => exact Or.inr ⟨rfl, rfl⟩
    | some p => exact Or.inl ⟨rfl, rfl⟩

/-- C6: `make_prediction` is deterministic for a fixed model handle — the
handle is a pure function in the embedding, as the spec states Predict has no
side effects beyond computation — so identical records give identical
results. -/
theorem make_prediction_deterministic (m : Model) (r1 r2 : ClaimRecord)
    (h : r1 = r2) : make_prediction m r1 = make_prediction m r2 := by
  rw [h]

/-- Witness for C6 at `specModel` and the concrete record `okRecord`. -/
theorem make_prediction_deterministic_witness :
    make_prediction specModel okRecord = make_prediction specModel okRecord :=
  make_prediction_deterministic specModel okRecord okRecord rfl

/-- `specModel` obeys the artifact contract. -/
theorem specModel_contract : ModelContract specModel := by
  constructor
  · intro r l h
    simp only [specModel] at h
    split at h
    · exact Or.inr (by simpa using h.symm)
    · exact absurd h (by simp)
  · intro r p h
    simp only [specModel] at h
    split at h
    · have hp : p = (1/5, 4/5) := by simpa using h.symm
      subst hp
      norm_num
    · exact absurd h (by simp)

/-- C7: under the artifact contract, every successful `make_prediction` yields
a label in {0, 1} and a probability pair with both components in [0, 1] and
summing exactly to 1 (the embedding computes in exact rational arithmetic, so
the floating-point tolerance is 0). -/
theorem make_prediction_probabilities (m : Model) (r : ClaimRecord)
    (l : Int) (p : ℚ × ℚ) (hm : ModelContract m)
    (h : make_prediction m r = (some l, some p)) :
    (l = 0 ∨ l = 1) ∧ 0 ≤ p.1 ∧ p.1 ≤ 1 ∧ 0 ≤ p.2 ∧ p.2 ≤ 1 ∧ p.1 + p.2 = 1 := by
  unfold make_prediction at h
  cases hp : m.predict r with
  | none =>
    rw [hp] at h
    exact absurd h (by simp)
  | some l0 =>
    rw [hp] at h
    cases hq : m.predict_proba r with
    | none =>
      rw [hq] at h
      exact absurd h (by simp)
    | some p0 =>
      rw [hq] at h
      have hl : l0 = l := by simpa using congrArg Prod.fst h
      have hpr : p0 = p := by simpa using congrArg Prod.snd h
      subst hl
      subst hpr
      have hlab := hm.1 r l0 hp
      have hpp := hm.2 r p0 hq
      exact ⟨hlab, hpp.1, by linarith [hpp.2.1, hpp.2.2], hpp.2.1,
        by linarith [hpp.1, hpp.2.2], hpp.2.2⟩

/-- Witness for C7: `specModel` satisfies the contract and predicts
`(1, (1/5, 4/5))` on the concrete record `okRecord`. -/
theorem make_prediction_probabilities_witness :
    ((1 : Int) = 0 ∨ (1 : Int) = 1) ∧
    0 ≤ ((1/5 : ℚ), (4/5 : ℚ)).1 ∧ ((1/5 : ℚ), (4/5 : ℚ)).1 ≤ 1 ∧
    0 ≤ ((1/5 : ℚ), (4/5 : ℚ)).2 ∧ ((1/5 : ℚ), (4/5 : ℚ)).2 ≤ 1 ∧
    ((1/5 : ℚ), (4/5 : ℚ)).1 + ((1/5 : ℚ), (4/5 : ℚ)).2 = 1 :=
  make_prediction_probabilities specModel okRecord 1 (1/5, 4/5)
    specModel_contract (by rfl)

/-- C8: for every model that fails on unseen categorical values — the failure
mode the spec defines for the encoder — and every record with a categorical
field outside its trained domain, `make_prediction` returns the error outcome
`(None, None)`, never a silently wrong prediction. -/
theorem make_prediction_unseen_categorical (m : Model) (hm : FailsOnUnseen m)
    (r : ClaimRecord) (hr : ¬ encodes r) :
    make_prediction m r = (none, none) := by
  unfold make_prediction
  rw [hm r hr]

/-- Witness for C8: `specModel` fails on `teslaRecord`, whose Make is Tesla. -/
theorem make_prediction_unseen_categorical_witness :
    make_prediction specModel teslaRecord = (none, none) :=
  make_prediction_unseen_categorical specModel
    (fun r hr => by simp only [specModel, if_neg hr]) teslaRecord (by decide)

/-- C9: every record produced by `create_input_features` satisfies the domain
invariant by construction — each categorical field is a member of its fixed
selectbox enumeration and each numeric field lies within its widget bounds
(Age in [16, 80], Year in [1994, 1996], Deductible in [300, 700] on the step
grid of 100, WeekOfMonth in [1, 5], WeekOfMonthClaimed in [0, 5], DriverRating
in [1, 4], RepNumber in [1, 16], PolicyNumber in [1, 15420]) — and hence every
such record encodes: the unseen-categorical-value failure mode is unreachable
through the form interface. -/
theorem create_input_features_valid (c : UserChoices) :
    validClaimRecord (create_input_features c) ∧ encodes (create_input_features c) := by
  have hweek := slider_bounds 1 5 3 1 c.week_of_month (by norm_num) (by norm_num) (by norm_num)
  have hweekc := slider_bounds 0 5 3 1 c.week_of_month_claimed (by norm_num) (by norm_num)
    (by norm_num)
  have hage := slider_bounds 16 80 40 1 c.age (by norm_num) (by norm_num) (by norm_num)
  have hded := slider_bounds 300 700 400 100 c.deductible (by norm_num) (by norm_num)
    (by norm_num)
  have hdrv := slider_bounds 1 4 2 1 c.driver_rating (by norm_num) (by norm_num) (by norm_num)
  have hrep := slider_bounds 1 16 8 1 c.rep_number (by norm_num) (by norm_num) (by norm_num)
  have hyear := slider_bounds 1994 1996 1995 1 c.year (by norm_num) (by norm_num) (by norm_num)
  have hpol := numberInput_bounds 1 15420 7710 c.policy_number (by norm_num)
  have hcats : encodes (create_input_features c) :=
    ⟨selectbox_mem _ (by decide) _, selectbox_mem _ (by decide) _,
     selectbox_mem _ (by decide) _, selectbox_mem _ (by decide) _,
     selectbox_mem _ (by decide) _, selectbox_mem _ (by decide) _,
     selectbox_mem _ (by decide) _, selectbox_mem _ (by decide) _,
     selectbox_mem _ (by decide) _, selectbox_mem _ (by decide) _,
     selectbox_mem _ (by decide) _, selectbox_mem _ (by decide) _,
     selectbox_mem _ (by decide) _, selectbox_mem _ (by decide) _,
     selectbox_mem _ (by decide) _, selectbox_mem _ (by decide) _,
     selectbox_mem _ (by decide) _, selectbox_mem _ (by decide) _,
     selectbox_mem _ (by decide) _, selectbox_mem _ (by decide) _,
     selectbox_mem _ (by decide) _, selectbox_mem _ (by decide) _,
     selectbox_mem _ (by decide) _, selectbox_mem _ (by decide) _⟩
  refine ⟨⟨hcats, ?_⟩, hcats⟩
  exact ⟨hweek.1, hweek.2.1, hweekc.1, hweekc.2.1, hage.1, hage.2.1,
    hpol.1, hpol.2, hrep.1, hrep.2.1, hded.1, hded.2.1, hded.2.2,
    hdrv.1, hdrv.2.1, hyear.1, hyear.2.1⟩

/-- C5: the caller renders a verdict, probability scores and risk level only
when loading succeeded and `make_prediction` returned a complete result; when
loading fails the request stops before any prediction, and when the prediction
fails nothing is rendered. -/
theorem main_renders_only_on_success (fs : ArtifactState) (c : UserChoices)
    (pressed : Bool) :
    ((load_model fs).1 = none → main fs c pressed = RenderOutcome.stopped) ∧
    (∀ l p rl, main fs c pressed = RenderOutcome.rendered l p rl →
      ∃ m, (load_model fs).1 = some m ∧
        make_prediction m (create_input_features c) = (some l, some p) ∧
        rl = riskLevel p.2) := by
  cases fs with
  | missing =>
    exact ⟨fun _ => rfl, fun l p rl h => absurd h (by simp [main, load_model])⟩
  | corrupt e =>
    exact ⟨fun _ => rfl, fun l p rl h => absurd h (by simp [main, load_model])⟩
  | readable m =>
    constructor
    · intro h
      exact absurd h (by simp [load_model])
    · intro l p rl h
      refine ⟨m, rfl, ?_⟩
      cases pressed with
      | false => exact absurd h (by simp [main, load_model])
      | true =>
        rcases hmk : make_prediction m (create_input_features c) with ⟨o1, o2⟩
        simp only [main, load_model, hmk] at h
        cases o1 with
        | none => simp at h
        | some l0 =>
          cases o2 with
          | none => simp at h
          | some p0 =>
            have h4 : l0 = l ∧ p0 = p ∧ riskLevel p0.2 = rl := by simpa using h
            obtain ⟨h1, h2, h3⟩ := h4
            subst h1
            subst h2
            subst h3
            exact ⟨rfl, rfl⟩

/-- Witness for C5 at the missing-artifact state: main stops. -/
theorem main_renders_only_on_success_witness :
    main ArtifactState.missing defaultChoices true = RenderOutcome.stopped :=
  (main_renders_only_on_success ArtifactState.missing defaultChoices true).1 rfl

end FraudApp
